import Mathlib

/-!
Verification of the Zambia Tennis Association website (`app.py`).

The application is a small Flask site: two insert-only persistence
operations (membership registrations, contact messages) backed by SQLite,
in-memory content lists (news, events, rankings), an events JSON loader
with a hard-coded fallback, and directory-backed image galleries.

This file gives a shallow embedding of the parts of `app.py` that the
spec's claims are about, and proves the claims against it:

* Python string primitives (`str.strip`, `str.lower`, `str.endswith`,
  `int(...)`, truthiness, list sort) are modelled over `String.data`
  character lists so that every definition evaluates in the kernel.
* The SQLite layer is modelled as an explicit `DB` state: tables are lists
  of rows, `AUTOINCREMENT` ids are a counter owned by the storage layer.
* `datetime.utcnow().isoformat()` is nondeterministic; handlers take the
  timestamp as an explicit argument.
* `flash(msg, cat)` outcomes are returned as a `Flash` value.
* The events JSON file is modelled by `EventsFile`: absent, present but
  unreadable/unparseable (an exception during `open`/`json.load`), or
  successfully parsed to a JSON value.
-/

namespace ZTA

/-! Part: Python string primitives, modelled over character lists -/

/-- Model of Python `str.strip()` (no arguments): remove leading and
trailing whitespace. -/
def pyStrip (s : String) : String :=
  ⟨((s.data.dropWhile Char.isWhitespace).reverse.dropWhile Char.isWhitespace).reverse⟩

/-- Model of Python `str.lower()` (ASCII range, which is all the code
compares). -/
def pyLower (s : String) : String :=
  ⟨s.data.map Char.toLower⟩

/-- Model of Python `str.endswith(suffix)` for a single suffix. -/
def pyEndsWith (s suffix : String) : Bool :=
  suffix.data.isSuffixOf s.data

/-- Lexicographic comparison of character lists by code point; this is the
order Python's `list.sort()` and `sorted()` use on strings. -/
def charListLe : List Char → List Char → Bool
  | [], _ => true
  | _ :: _, [] => false
  | a :: as, b :: bs => if a = b then charListLe as bs else decide (a < b)

/-- Python string `<=`: lexicographic by code point. -/
abbrev pyStrLe (a b : String) : Prop := charListLe a.data b.data = true

/-- Value of a list of decimal digit characters. -/
def digitsVal (cs : List Char) : Nat :=
  cs.foldl (fun n c => n * 10 + (c.toNat - 48)) 0

/-- Model of Python `int(s)`: optional surrounding whitespace, optional
sign, then decimal digits; anything else raises `ValueError`, modelled as
`none`.  (Python also allows `_` digit separators; the code never relies
on that and it is not modelled.) -/
def pyParseInt (s : String) : Option Int :=
  match (pyStrip s).data with
  | [] => none
  | c :: cs =>
    if c = '-' then
      if !cs.isEmpty && cs.all Char.isDigit then some (-(digitsVal cs : Int)) else none
    else if c = '+' then
      if !cs.isEmpty && cs.all Char.isDigit then some ((digitsVal cs : Int)) else none
    else
      if (c :: cs).all Char.isDigit then some ((digitsVal (c :: cs) : Int)) else none

/-- Python truthiness of an optional string (`form.get(k)` returns `None`
or a string; `None` and `""` are falsy). -/
def pyTruthy : Option String → Bool
  | none => false
  | some s => !(s == "")

/-- Model of `form.get(k).strip() if form.get(k) else None` (app.py:302-303,
app.py:330-331). -/
def strippedOrNone (o : Option String) : Option String :=
  if pyTruthy o then o.map pyStrip else none

/-! Part: Storage schema and persistence operations (app.py:40-117)

`init_db` creates tables `members` and `messages`; ids are
`INTEGER PRIMARY KEY AUTOINCREMENT`, so they are assigned by the storage
layer from a monotonically increasing counter (starting at 1). -/

/-- A row of the `members` table (app.py:47-56). -/
structure MemberRow where
  id : Nat
  name : String
  email : String
  phone : Option String
  category : Option String
  address : Option String
  age : Option Int
  joined_at : String
deriving DecidableEq

/-- A row of the `messages` table (app.py:62-69). -/
structure MessageRow where
  id : Nat
  name : String
  email : String
  subject : Option String
  message : Option String
  sent_at : String
deriving DecidableEq

/-- The SQLite database state: the two tables plus the storage layer's
`AUTOINCREMENT` counters. -/
structure DB where
  members : List MemberRow
  nextMemberId : Nat
  messages : List MessageRow
  nextMessageId : Nat
deriving DecidableEq

/-- Model of `init_db` (app.py:40-73): fresh empty tables; `AUTOINCREMENT`
counters start at 1. -/
def init_db : DB :=
  { members := [], nextMemberId := 1, messages := [], nextMessageId := 1 }

/-- Model of `insert_member` (app.py:76-96): single-statement insert; the storage
layer assigns the id and bumps its counter. -/
def insert_member (name email : String) (phone category address : Option String)
    (age : Option Int) (joined_at : String) (db : DB) : DB :=
  { db with
    members := db.members ++
      [{ id := db.nextMemberId, name := name, email := email, phone := phone,
         category := category, address := address, age := age, joined_at := joined_at }],
    nextMemberId := db.nextMemberId + 1 }

/-- Model of `insert_message` (app.py:99-117): single-statement insert; the storage
layer assigns the id and bumps its counter. -/
def insert_message (name email : String) (subject message : Option String)
    (sent_at : String) (db : DB) : DB :=
  { db with
    messages := db.messages ++
      [{ id := db.nextMessageId, name := name, email := email, subject := subject,
         message := message, sent_at := sent_at }],
    nextMessageId := db.nextMessageId + 1 }

/-! Part: Form handlers (app.py:296-348) -/

/-- A `flash(message, category)` call (Flask flash-style status message). -/
structure Flash where
  message : String
  category : String
deriving DecidableEq

/-- The POST form data: `request.form.get(k)` is `none` when the field is
absent. -/
structure Form where
  name : Option String
  email : Option String
  phone : Option String
  category : Option String
  address : Option String
  age : Option String
  subject : Option String
  message : Option String
deriving DecidableEq

/-- The call `flash("Name and email are required.", "danger")` (app.py:305,333). -/
def required_flash : Flash :=
  { message := "Name and email are required.", category := "danger" }

/-- The call `flash("Thank you for registering! ...", "success")` (app.py:318). -/
def member_success_flash : Flash :=
  { message := "Thank you for registering! We will contact you soon.", category := "success" }

/-- The call flashing "Error saving your registration: " followed by the
exception text, with category "danger" (app.py:320). -/
def member_error_flash (reason : String) : Flash :=
  { message := "Error saving your registration: " ++ reason, category := "danger" }

/-- The `ValueError` text raised by `int(raw)` on a non-integer string
(exception text abbreviated; only its presence matters). -/
def int_parse_error (raw : String) : String :=
  "invalid literal for int with base 10: " ++ raw

/-- The call `flash("Thank you for contacting us. ...", "success")` (app.py:344). -/
def contact_success_flash : Flash :=
  { message := "Thank you for contacting us. We will respond shortly.", category := "success" }

/-- The POST branch of the `membership` handler (app.py:299-321).
Validation: `name`/`email` required non-empty after stripping; a provided
non-empty `age` that fails `int(...)` raises inside the `try` before
`insert_member` runs, so the generic error flash is shown and nothing is
written.  The handler is a total function: it never crashes. -/
def membership (form : Form) (now : String) (db : DB) : DB × Flash :=
  let name := strippedOrNone form.name
  let email := strippedOrNone form.email
  if !(pyTruthy name) || !(pyTruthy email) then
    (db, required_flash)
  else
    if pyTruthy form.age then
      match pyParseInt (form.age.getD "") with
      | some ageVal =>
        (insert_member (name.getD "") (email.getD "") form.phone form.category form.address
          (some ageVal) now db,
         member_success_flash)
      | none =>
        (db, member_error_flash (int_parse_error (form.age.getD "")))
    else
      (insert_member (name.getD "") (email.getD "") form.phone form.category form.address
        none now db,
       member_success_flash)

/-- The POST branch of the `contact` handler (app.py:328-347). -/
def contact (form : Form) (now : String) (db : DB) : DB × Flash :=
  let name := strippedOrNone form.name
  let email := strippedOrNone form.email
  if !(pyTruthy name) || !(pyTruthy email) then
    (db, required_flash)
  else
    (insert_message (name.getD "") (email.getD "") form.subject form.message now db,
     contact_success_flash)

/-! Part: News content (app.py:132-193) -/

/-- A news post record. -/
structure NewsPost where
  title : String
  date : String
  summary : String
  content : String
deriving DecidableEq

/-- Entry `SAMPLE_NEWS[0]` (app.py:133-142). -/
def newsPost1 : NewsPost :=
  { title := "IFS Invitational Youth Tournament showcases rising stars",
    date := "2025-08-02",
    summary := "The U12 & U14 IFS Invitational at Kansanshi Golf Estate delivered exciting matches and underscored the association’s commitment to youth development.",
    content := "Hosted at the picturesque Kansanshi Golf Estate in Solwezi, the IFS Invitational Tournament for under‑12 and under‑14 boys and girls brought together promising talent from across Zambia. Sponsored by International Facilities Services (IFS) in collaboration with Kansanshi Mining Project, the event offered high‑quality playing opportunities and emphasised sportsmanship and passion for the game. Match results and standings were shared throughout the tournament, and parents, coaches and officials applauded the young athletes’ dedication." }

/-- Entry `SAMPLE_NEWS[1]` (app.py:143-152). -/
def newsPost2 : NewsPost :=
  { title := "Copperbelt Open finals produce new champions",
    date := "2025-08-04",
    summary := "After four days of thrilling tennis in Kitwe, the Copperbelt Open crowned new champions in both the men’s and women’s divisions.",
    content := "The Copperbelt Open, hosted at Nkana Tennis Club, culminated in a dramatic finals day. Spectators witnessed intense rallies and tactical play as emerging players seized their moment to lift the national titles. The tournament showcased the depth of talent in Zambian tennis and provided valuable ranking points ahead of forthcoming national events." }

/-- Entry `SAMPLE_NEWS[2]` (app.py:153-162). -/
def newsPost3 : NewsPost :=
  { title := "Ladies trials set stage for 2024 All Africa Games",
    date := "2023-12-27",
    summary := "Trials at Nkana Tennis Club determined which female players would represent Zambia at the All Africa Games in Accra.",
    content := "In the closing days of 2023, the association organised women’s trials to select representatives for the 2024 All Africa Games in Ghana. The round‑robin format produced competitive matches and highlighted the growing depth of women’s tennis in Zambia. The trials underline the association’s commitment to equal opportunities and preparing athletes for continental competition." }

/-- Entry `SAMPLE_NEWS[3]` (app.py:163-172). -/
def newsPost4 : NewsPost :=
  { title := "MIKA Hotels invests in seventh international championship",
    date := "2023-10-20",
    summary := "A £500,000 sponsorship from MIKA Hotels boosted the 7th MIKA Tennis Championships, attracting players from nine countries.",
    content := "Held at Lusaka Tennis Club, the 2023 MIKA International Championships drew around 120 participants from Zambia and eight neighbouring countries. The significant sponsorship from MIKA Hotels enabled higher prize money and improved facilities, enhancing the event’s stature. The tournament provided a platform for local athletes to test themselves against regional competitors and showcased Zambia as a growing hub for tennis in Southern Africa." }

/-- Entry `SAMPLE_NEWS[4]` (app.py:173-183). -/
def newsPost5 : NewsPost :=
  { title := "Junior champions crowned at Mike Mambwe Memorial",
    date := "2023-09-20",
    summary := "Thrilling finals at the Mike Mambwe Junior Championship saw young players claim titles in the U10 and U14 categories.",
    content := "The Mike Mambwe Junior Championship in Ndola celebrated promising talent across the under‑10 and under‑14 divisions. In the U10 final, a three‑set battle kept spectators on edge before a determined young player clinched victory in a match tie‑break. The U14 girls’ final was equally competitive, with the champion prevailing 6–4, 7–5 after an impressive run through the draw. These grassroots events reflect the association’s dedication to nurturing junior players and providing competitive opportunities across age groups." }

/-- Entry `SAMPLE_NEWS[5]` (app.py:184-192). -/
def newsPost6 : NewsPost :=
  { title := "Association recognised for successful 2024 AGM",
    date := "2024-12-16",
    summary := "The National Olympic Committee of Zambia congratulated the association on its well‑organised Annual General Meeting.",
    content := "In December 2024 the National Olympic Committee of Zambia (NOCZ) publicly congratulated the Zambia Tennis Association on hosting a successful Annual General Meeting. The recognition reflects improved governance under the current executive committee and encourages continued collaboration with stakeholders to grow the sport nationwide." }

/-- The list `SAMPLE_NEWS` (app.py:132-193), in source order. -/
def SAMPLE_NEWS : List NewsPost :=
  [newsPost1, newsPost2, newsPost3, newsPost4, newsPost5, newsPost6]

/-! Part: Events (app.py:199-235) and the home page (app.py:247-263) -/

/-- An event record; every field other than the title may be absent in an
externally supplied events file, so they are `Option`s.  (`end` is a Lean
keyword, hence `end_`.) -/
structure Event where
  title : String
  start : Option String
  end_ : Option String
  location : Option String
  category : Option String
  description : Option String
deriving DecidableEq

/-- Entry `DEFAULT_EVENTS[0]` (app.py:200-207). -/
def defaultEvent1 : Event :=
  { title := "National Championships",
    start := some "2025-08-20",
    end_ := some "2025-08-24",
    location := some "Lusaka National Tennis Centre",
    category := some "ZTA SENIOR",
    description := some "The annual national championships featuring singles and doubles events for men and women." }

/-- Entry `DEFAULT_EVENTS[1]` (app.py:208-215). -/
def defaultEvent2 : Event :=
  { title := "Youth Development Camp",
    start := some "2025-09-15",
    end_ := some "2025-09-19",
    location := some "Copperbelt Tennis Academy, Ndola",
    category := some "TRAINING",
    description := some "A training camp for junior players focusing on skill development, fitness and mental preparation." }

/-- Entry `DEFAULT_EVENTS[2]` (app.py:216-223). -/
def defaultEvent3 : Event :=
  { title := "Coaches Certification Course",
    start := some "2025-10-05",
    end_ := some "2025-10-08",
    location := some "Livingstone Sports Complex",
    category := some "TRAINING",
    description := some "An ITF accredited certification course for tennis coaches seeking to upgrade their qualifications." }

/-- The list `DEFAULT_EVENTS` (app.py:199-224): the built-in default list of three
sample events. -/
def DEFAULT_EVENTS : List Event :=
  [defaultEvent1, defaultEvent2, defaultEvent3]

/-- A JSON value, as produced by `json.load` (numbers restricted to
integers; the events data uses none). -/
inductive JsonVal where
  | null
  | bool (b : Bool)
  | num (n : Int)
  | str (s : String)
  | arr (elems : List JsonVal)
  | obj (fields : List (String × JsonVal))

/-- JSON encoding of an optional event field. -/
def optField (key : String) (v : Option String) : List (String × JsonVal) :=
  match v with
  | none => []
  | some s => [(key, JsonVal.str s)]

/-- JSON encoding of an event record, with the keys the source uses. -/
def eventToJson (e : Event) : JsonVal :=
  JsonVal.obj ([("title", JsonVal.str e.title)] ++ optField "start" e.start ++
    optField "end" e.end_ ++ optField "location" e.location ++
    optField "category" e.category ++ optField "description" e.description)

/-- The list `DEFAULT_EVENTS` as the JSON value `jsonify` would serialize. -/
def DEFAULT_EVENTS_JSON : JsonVal :=
  JsonVal.arr (DEFAULT_EVENTS.map eventToJson)

/-- The state of `data/events.json` at process start: absent, present but
raising during `open`/`json.load`, or parsed to a JSON value. -/
inductive EventsFile where
  | absent
  | unreadable
  | parsed (v : JsonVal)

/-- The module-level events loading (app.py:226-235): `EVENTS` is the
parsed JSON value when the file exists and parses; on a missing file or
any exception the default list is silently substituted, and the loading
step itself never raises. -/
def EVENTS : EventsFile → JsonVal
  | .absent => DEFAULT_EVENTS_JSON
  | .unreadable => DEFAULT_EVENTS_JSON
  | .parsed v => v

/-- Flask `jsonify`: serializes the given value verbatim. -/
def jsonify (v : JsonVal) : JsonVal := v

/-- Route `GET /api/events` (app.py:284-287): `jsonify(EVENTS)`. -/
def api_events (fileState : EventsFile) : JsonVal :=
  jsonify (EVENTS fileState)

/-- The sort key of the home page event sort: `e["start"]`
(app.py:254).  `getD ""` is never reached on the sorting path, which runs
only when every event has a start date. -/
def startKey (e : Event) : String :=
  e.start.getD ""

/-- Ordering of events by start date string (the key function of
app.py:254). -/
abbrev eventLe (a b : Event) : Prop := pyStrLe (startKey a) (startKey b)

/-- The `try: events_sorted = sorted(EVENTS, key=...) except: events_sorted
= EVENTS` step (app.py:252-256).  `sorted` calls the key function on every
element, so a single event without a `"start"` key raises `KeyError` and
the original order is kept.  (In the embedding start values are strings,
so a comparison itself cannot raise; the missing-key case is the
exception path.) -/
def events_sorted (evs : List Event) : List Event :=
  if evs.all (fun e => e.start.isSome) then List.insertionSort eventLe evs else evs

/-- Model of `events_preview = events_sorted[:6] if events_sorted else []`
(app.py:257). -/
def events_preview (evs : List Event) : List Event :=
  if (events_sorted evs).isEmpty then [] else (events_sorted evs).take 6

/-- Model of `news_preview = SAMPLE_NEWS[:3]` (app.py:250). -/
def news_preview : List NewsPost :=
  SAMPLE_NEWS.take 3

/-- The `index` handler (app.py:247-263): renders the two previews; it is
a pure read and leaves the database untouched. -/
def index (evs : List Event) (db : DB) : (List NewsPost × List Event) × DB :=
  ((news_preview, events_preview evs), db)

/-! Part: Galleries (app.py:352-391) -/

/-- The image extension tuple of app.py:358. -/
def IMAGE_EXTENSIONS : List String :=
  [".png", ".jpg", ".jpeg", ".gif"]

/-- Model of `f.lower().endswith(('.png', '.jpg', '.jpeg', '.gif'))` (app.py:358):
case-insensitive extension filter. -/
def isImageFile (f : String) : Bool :=
  IMAGE_EXTENSIONS.any (fun ext => pyEndsWith (pyLower f) ext)

/-- The `try: files = [f for f in os.listdir(dir) if ...]; files.sort()
except: files = []` step (app.py:357-362).  `listing` is `none` when
`os.listdir` raises (missing or unlistable directory), otherwise the
directory entries in listing order. -/
def gallery_files (listing : Option (List String)) : List String :=
  match listing with
  | none => []
  | some entries => List.insertionSort pyStrLe (entries.filter isImageFile)

/-- Model of `url_for('static', filename=...)`: the public URL of a static file. -/
def url_for_static (filename : String) : String :=
  "/static/" ++ filename

/-- The `veterans_gallery` handler (app.py:352-365): filtered and sorted
filenames mapped to public URLs. -/
def veterans_gallery (listing : Option (List String)) : List String :=
  (gallery_files listing).map (fun fname => url_for_static ("images/veterans/" ++ fname))

/-- The `juniors_gallery` handler (app.py:368-378), same shape. -/
def juniors_gallery (listing : Option (List String)) : List String :=
  (gallery_files listing).map (fun fname => url_for_static ("images/juniors/" ++ fname))

/-- The `seniors_gallery` handler (app.py:381-391), same shape. -/
def seniors_gallery (listing : Option (List String)) : List String :=
  (gallery_files listing).map (fun fname => url_for_static ("images/seniors/" ++ fname))

/-- Does a filename begin with an ASCII uppercase letter? -/
def startsUpper (s : String) : Bool :=
  match s.data with
  | [] => false
  | c :: _ => 65 ≤ c.toNat && c.toNat ≤ 90

/-- Does a filename begin with an ASCII lowercase letter? -/
def startsLower (s : String) : Bool :=
  match s.data with
  | [] => false
  | c :: _ => 97 ≤ c.toNat && c.toNat ≤ 122

/-! Part: Demonstration inputs for the witnesses -/

/-- A membership form whose name is whitespace only. -/
def blankNameForm : Form :=
  { name := some "   ", email := some "jane@example.com", phone := none, category := none,
    address := none, age := none, subject := none, message := none }

/-- A membership form with valid name and email but a non-integer age. -/
def badAgeForm : Form :=
  { name := some "Jane Doe", email := some "jane@example.com", phone := none, category := none,
    address := none, age := some "abc", subject := none, message := none }

/-- A valid membership form without an age. -/
def janeForm : Form :=
  { name := some "Jane Doe", email := some "jane@example.com", phone := none, category := none,
    address := none, age := none, subject := none, message := none }

/-- A valid contact form. -/
def aliceForm : Form :=
  { name := some "Alice", email := some "alice@example.com", phone := none, category := none,
    address := none, age := none, subject := some "Hi", message := some "Hello there" }

/-- A second valid contact form. -/
def bobForm : Form :=
  { name := some "Bob", email := some "bob@example.com", phone := none, category := none,
    address := none, age := none, subject := none, message := some "Court times" }

/-- An event record whose `"start"` key is missing. -/
def eventNoStart : Event :=
  { title := "TBA", start := none, end_ := none, location := none, category := none,
    description := none }

/-! Part: Helper lemmas -/

/-- Totality of `charListLe`. -/
theorem charListLe_total : ∀ as bs : List Char, charListLe as bs = true ∨ charListLe bs as = true
  | [], _ => .inl rfl
  | _ :: _, [] => .inr rfl
  | a :: as, b :: bs => by
    by_cases hab : a = b
    · subst hab
      simpa [charListLe] using charListLe_total as bs
    · rcases lt_or_gt_of_ne hab with h | h
      · left
        simp [charListLe, hab, h]
      · right
        simp [charListLe, Ne.symm hab, h]

/-- Transitivity of `charListLe`. -/
theorem charListLe_trans : ∀ as bs cs : List Char,
    charListLe as bs = true → charListLe bs cs = true → charListLe as cs = true
  | [], _, _, _, _ => rfl
  | _ :: _, [], _, h, _ => by simp [charListLe] at h
  | _ :: _, _ :: _, [], _, h => by simp [charListLe] at h
  | a :: as, b :: bs, c :: cs, h1, h2 => by
    by_cases hab : a = b <;> by_cases hbc : b = c
    · subst hab; subst hbc
      simp only [charListLe, if_pos rfl] at h1 h2 ⊢
      exact charListLe_trans as bs cs h1 h2
    · subst hab
      simp only [charListLe, if_pos rfl, if_neg hbc, decide_eq_true_eq] at h1 h2 ⊢
      simp [ne_of_lt h2, h2]
    · subst hbc
      simp only [charListLe, if_pos rfl, if_neg hab, decide_eq_true_eq] at h1 h2 ⊢
      simp [hab, h1]
    · simp only [charListLe, if_neg hab, if_neg hbc, decide_eq_true_eq] at h1 h2 ⊢
      have hac : a < c := lt_trans h1 h2
      simp [ne_of_lt hac, hac]

/-- Totality of `pyStrLe`. -/
theorem pyStrLe_total (a b : String) : pyStrLe a b ∨ pyStrLe b a :=
  charListLe_total a.data b.data

/-- Transitivity of `pyStrLe`. -/
theorem pyStrLe_trans {a b c : String} (h1 : pyStrLe a b) (h2 : pyStrLe b c) : pyStrLe a c :=
  charListLe_trans a.data b.data c.data h1 h2

/-- The truthiness of `form.get(k).strip() if form.get(k) else None`
depends only on whether the stripped field is the empty string. -/
theorem pyTruthy_strippedOrNone (o : Option String) :
    pyTruthy (strippedOrNone o) = !(pyStrip (o.getD "") == "") := by
  cases o with
  | none => decide
  | some s =>
    by_cases hs : s = ""
    · subst hs; decide
    · simp [strippedOrNone, pyTruthy, hs]

/-- A truthy optional string is a non-empty string. -/
theorem pyTruthy_getD_ne {o : Option String} (h : pyTruthy o = true) : o.getD "" ≠ "" := by
  cases o with
  | none => simp [pyTruthy] at h
  | some s =>
    simp [pyTruthy] at h
    simpa using h

/-- A field that strips to a non-empty string is truthy after
`strippedOrNone`. -/
theorem pyTruthy_stripped_of_ne {o : Option String} (h : pyStrip (o.getD "") ≠ "") :
    pyTruthy (strippedOrNone o) = true := by
  rw [pyTruthy_strippedOrNone]
  simpa using h

/-- The handlers' shared validation condition fails (is `false`) exactly
when both stripped fields are non-empty. -/
theorem valid_cond {f : Form} (hn : pyStrip (f.name.getD "") ≠ "")
    (he : pyStrip (f.email.getD "") ≠ "") :
    (!(pyTruthy (strippedOrNone f.name)) || !(pyTruthy (strippedOrNone f.email))) = false := by
  rw [pyTruthy_strippedOrNone, pyTruthy_strippedOrNone]
  simp [hn, he]

/-- The handlers' shared validation condition holds (is `true`) when either
field strips to the empty string. -/
theorem invalid_cond {f : Form} (h : pyStrip (f.name.getD "") = "" ∨ pyStrip (f.email.getD "") = "") :
    (!(pyTruthy (strippedOrNone f.name)) || !(pyTruthy (strippedOrNone f.email))) = true := by
  rw [pyTruthy_strippedOrNone, pyTruthy_strippedOrNone]
  rcases h with h | h <;> simp [h]

/-! Part: Claims about the form handlers -/

/-- C1: a membership POST whose name or email is absent or empty after
stripping whitespace leaves the database unchanged — so no `Member` row is
written and the members table is untouched — and flashes the validation
failure message `"Name and email are required."`. -/
theorem membership_missing_required (form : Form) (now : String) (db : DB)
    (h : pyStrip (form.name.getD "") = "" ∨ pyStrip (form.email.getD "") = "") :
    membership form now db = (db, required_flash) := by
  simp [membership, invalid_cond h]

/-- C1 witness: a whitespace-only name at the initial database. -/
theorem membership_missing_required_witness :
    pyStrip "   " = "" ∧
    membership blankNameForm "2025-01-01T00:00:00" init_db = (init_db, required_flash) :=
  ⟨by decide,
   membership_missing_required blankNameForm "2025-01-01T00:00:00" init_db (Or.inl (by decide))⟩

/-- C2: a membership POST with non-empty stripped name and email but a
provided age that `int(...)` rejects leaves the database unchanged — no
`Member` row is written — and flashes the error outcome, whose `"danger"`
category is the same category as a validation failure; the handler is a
total function, so it does not crash. -/
theorem membership_bad_age (form : Form) (now : String) (db : DB)
    (hn : pyStrip (form.name.getD "") ≠ "") (he : pyStrip (form.email.getD "") ≠ "")
    (ha : pyTruthy form.age = true) (hp : pyParseInt (form.age.getD "") = none) :
    membership form now db = (db, member_error_flash (int_parse_error (form.age.getD ""))) ∧
    (member_error_flash (int_parse_error (form.age.getD ""))).category =
      required_flash.category := by
  constructor
  · simp [membership, valid_cond hn he, ha, hp]
  · rfl

/-- C2 witness: `age="abc"` with valid name and email at the initial
database. -/
theorem membership_bad_age_witness :
    pyStrip "Jane Doe" ≠ "" ∧ pyParseInt "abc" = none ∧
    (membership badAgeForm "2025-01-01T00:00:00" init_db =
       (init_db, member_error_flash (int_parse_error "abc")) ∧
     (member_error_flash (int_parse_error "abc")).category = required_flash.category) :=
  ⟨by decide, by decide,
   membership_bad_age badAgeForm "2025-01-01T00:00:00" init_db (by decide) (by decide)
     (by decide) (by decide)⟩

set_option maxRecDepth 16384 in
/-- C3: evaluating the home page news preview at the shipped
`SAMPLE_NEWS`: the preview is the first three list entries, which are not
the three most recent posts by date — the excluded AGM post (`newsPost6`,
dated 2024-12-16) is strictly more recent than the included ladies-trials
post (`newsPost3`, dated 2023-12-27). -/
theorem news_preview_not_most_recent :
    news_preview = [newsPost1, newsPost2, newsPost3] ∧
    newsPost3 ∈ news_preview ∧
    newsPost6 ∈ SAMPLE_NEWS ∧
    newsPost6 ∉ news_preview ∧
    pyStrLe newsPost3.date newsPost6.date ∧
    newsPost3.date ≠ newsPost6.date :=
  ⟨rfl, by decide, by decide, by decide, by decide, by decide⟩

/-! Part: Claims about the events preview and the events JSON source -/

/-- The `[:6] if ... else []` step always equals `take 6`. -/
theorem events_preview_eq_take (evs : List Event) :
    events_preview evs = (events_sorted evs).take 6 := by
  unfold events_preview
  by_cases h : (events_sorted evs).isEmpty = true
  · rw [if_pos h]
    rw [List.isEmpty_iff] at h
    rw [h]
    rfl
  · rw [if_neg h]

/-- When every event has a start date, the sort step sorts. -/
theorem events_sorted_all (evs : List Event) (h : ∀ e ∈ evs, e.start.isSome = true) :
    events_sorted evs = List.insertionSort eventLe evs := by
  unfold events_sorted
  rw [if_pos (List.all_eq_true.mpr h)]

/-- When some event is missing its start date, the `KeyError` path keeps
the original order. -/
theorem events_sorted_not_all (evs : List Event) (h : ¬ ∀ e ∈ evs, e.start.isSome = true) :
    events_sorted evs = evs := by
  unfold events_sorted
  rw [if_neg]
  intro hc
  exact h (List.all_eq_true.mp hc)

/-- C4: the home page event preview never exceeds 6 items; when every
event has a start date the preview is the first 6 entries of an
ascending-by-start-date sort (a sorted permutation) of the events list, so
its start dates are ascending; when any event lacks a start date the
preview falls back to the first 6 events in original order, without
crashing (the handler is a total function). -/
theorem events_preview_correct (evs : List Event) :
    (events_preview evs).length ≤ 6 ∧
    ((∀ e ∈ evs, e.start.isSome = true) →
      (events_sorted evs).Perm evs ∧
      List.Sorted eventLe (events_sorted evs) ∧
      events_preview evs = (events_sorted evs).take 6 ∧
      List.Sorted pyStrLe ((events_preview evs).map startKey)) ∧
    ((¬ ∀ e ∈ evs, e.start.isSome = true) → events_preview evs = evs.take 6) := by
  haveI : IsTotal Event eventLe := ⟨fun a b => pyStrLe_total (startKey a) (startKey b)⟩
  haveI : IsTrans Event eventLe := ⟨fun _ _ _ hab hbc => pyStrLe_trans hab hbc⟩
  refine ⟨?_, fun h => ?_, fun h => ?_⟩
  · rw [events_preview_eq_take]
    exact List.length_take_le 6 (events_sorted evs)
  · have hs := events_sorted_all evs h
    have hsorted : List.Sorted eventLe (events_sorted evs) := by
      rw [hs]
      exact List.sorted_insertionSort eventLe evs
    refine ⟨?_, hsorted, events_preview_eq_take evs, ?_⟩
    · rw [hs]
      exact List.perm_insertionSort eventLe evs
    · have hpre : List.Sorted eventLe (events_preview evs) := by
        rw [events_preview_eq_take]
        exact List.Pairwise.sublist (List.take_sublist 6 (events_sorted evs)) hsorted
      exact hpre.map startKey (fun _ _ hab => hab)
  · rw [events_preview_eq_take, events_sorted_not_all evs h]

/-- C4 witness: a list containing an event without a start date falls back
to original order. -/
theorem events_preview_correct_witness :
    (¬ ∀ e ∈ [eventNoStart, defaultEvent1], e.start.isSome = true) ∧
    events_preview [eventNoStart, defaultEvent1] = [eventNoStart, defaultEvent1].take 6 :=
  ⟨by decide, (events_preview_correct [eventNoStart, defaultEvent1]).2.2 (by decide)⟩

/-- C5: when the events file is absent, or raises while being read or
parsed, the in-memory events value is the built-in default list of exactly
three sample events, the loading step returns normally (it is a total
function), and `GET /api/events` serves exactly those three defaults. -/
theorem events_fallback_default :
    EVENTS .absent = DEFAULT_EVENTS_JSON ∧
    EVENTS .unreadable = DEFAULT_EVENTS_JSON ∧
    DEFAULT_EVENTS = [defaultEvent1, defaultEvent2, defaultEvent3] ∧
    DEFAULT_EVENTS.length = 3 ∧
    api_events .absent =
      JsonVal.arr [eventToJson defaultEvent1, eventToJson defaultEvent2, eventToJson defaultEvent3] ∧
    api_events .unreadable =
      JsonVal.arr [eventToJson defaultEvent1, eventToJson defaultEvent2, eventToJson defaultEvent3] :=
  ⟨rfl, rfl, rfl, rfl, rfl, rfl⟩

/-- C6: when the events file exists and parses to a JSON array,
`GET /api/events` returns exactly that array — no filtering, reordering or
pagination. -/
theorem api_events_array_verbatim (elems : List JsonVal) :
    EVENTS (.parsed (JsonVal.arr elems)) = JsonVal.arr elems ∧
    api_events (.parsed (JsonVal.arr elems)) = JsonVal.arr elems :=
  ⟨rfl, rfl⟩

/-- C9: the default-list fallback happens only on the exception path of
the loader: any successfully parsed JSON value — object, string or number
as much as an array — becomes the in-memory events value with no shape
check, and `GET /api/events` serves it verbatim. -/
theorem events_no_shape_check (v : JsonVal) :
    EVENTS (.parsed v) = v ∧
    api_events (.parsed v) = v ∧
    api_events (.parsed (JsonVal.obj [("oops", JsonVal.num 1)])) =
      JsonVal.obj [("oops", JsonVal.num 1)] ∧
    api_events (.parsed (JsonVal.str "not a list")) = JsonVal.str "not a list" ∧
    api_events (.parsed (JsonVal.num 7)) = JsonVal.num 7 :=
  ⟨rfl, rfl, rfl, rfl, rfl⟩

/-! Part: Claims about the galleries -/

/-- The gallery file list is always sorted in Python string order. -/
theorem gallery_files_sorted (listing : Option (List String)) :
    List.Sorted pyStrLe (gallery_files listing) := by
  haveI : IsTotal String pyStrLe := ⟨pyStrLe_total⟩
  haveI : IsTrans String pyStrLe := ⟨fun _ _ _ hab hbc => pyStrLe_trans hab hbc⟩
  cases listing with
  | none => exact List.sorted_nil
  | some entries => exact List.sorted_insertionSort pyStrLe (entries.filter isImageFile)

/-- C7: on a directory listing, the veterans gallery keeps exactly the
entries whose lowercased names end in `.png`/`.jpg`/`.jpeg`/`.gif`, sorts
the kept filenames lexicographically and maps each to its public static
URL; listing `["b.png", "a.jpg", "c.txt"]` yields the URLs of `a.jpg` then
`b.png` only; when the directory cannot be listed the handler returns the
empty list instead of failing. -/
theorem veterans_gallery_correct :
    veterans_gallery none = [] ∧
    (∀ entries : List String,
      (∀ f, f ∈ gallery_files (some entries) ↔ f ∈ entries ∧ isImageFile f = true) ∧
      List.Sorted pyStrLe (gallery_files (some entries)) ∧
      veterans_gallery (some entries) =
        (gallery_files (some entries)).map (fun fname => "/static/images/veterans/" ++ fname)) ∧
    veterans_gallery (some ["b.png", "a.jpg", "c.txt"]) =
      ["/static/images/veterans/a.jpg", "/static/images/veterans/b.png"] := by
  refine ⟨rfl, fun entries => ⟨fun f => ?_, gallery_files_sorted (some entries), ?_⟩, by decide⟩
  · show f ∈ List.insertionSort pyStrLe (entries.filter isImageFile) ↔ _
    rw [List.Perm.mem_iff (List.perm_insertionSort pyStrLe (entries.filter isImageFile))]
    exact List.mem_filter
  · rfl

/-- A string cannot begin both with an uppercase and a lowercase ASCII
letter. -/
theorem startsUpper_startsLower_false {s : String} (hu : startsUpper s = true)
    (hl : startsLower s = true) : False := by
  unfold startsUpper at hu
  unfold startsLower at hl
  cases h : s.data with
  | nil =>
    rw [h] at hu
    simp at hu
  | cons c cs =>
    rw [h] at hu hl
    simp only [Bool.and_eq_true, decide_eq_true_eq] at hu hl
    omega

/-- A string starting with a lowercase ASCII letter is never `<=` (in
Python string order) a string starting with an uppercase one. -/
theorem charListLe_lower_upper {l u : String} (hl : startsLower l = true)
    (hu : startsUpper u = true) : charListLe l.data u.data = false := by
  unfold startsLower at hl
  unfold startsUpper at hu
  cases hld : l.data with
  | nil =>
    rw [hld] at hl
    simp at hl
  | cons d ds =>
    cases hud : u.data with
    | nil =>
      rw [hud] at hu
      simp at hu
    | cons c cs =>
      rw [hld] at hl
      rw [hud] at hu
      simp only [Bool.and_eq_true, decide_eq_true_eq] at hl hu
      have hne : d ≠ c := by
        intro hdc
        rw [hdc] at hl
        omega
      have hnlt : ¬ d < c := by
        intro hdc
        have hdn : d.toNat < c.toNat := hdc
        omega
      simp [charListLe, hne, hnlt]

/-- C10: the gallery filename sort is a plain case-sensitive code-point
sort: in any listed directory, a kept filename beginning with an ASCII
uppercase letter is ordered strictly before any kept filename beginning
with a lowercase letter — even though the extension filter itself is
case-insensitive. -/
theorem gallery_sort_case_sensitive (fs : List String) (i j : Nat)
    (hi : i < (gallery_files (some fs)).length) (hj : j < (gallery_files (some fs)).length)
    (hu : startsUpper ((gallery_files (some fs)).get ⟨i, hi⟩) = true)
    (hl : startsLower ((gallery_files (some fs)).get ⟨j, hj⟩) = true) :
    i < j ∧ isImageFile "Z.PNG" = true ∧ isImageFile "z.png" = true := by
  refine ⟨?_, by decide, by decide⟩
  by_contra hij
  rcases Nat.lt_or_ge j i with hji | hji
  · have hle := @List.Sorted.rel_get_of_lt String pyStrLe _
      (gallery_files_sorted (some fs)) ⟨j, hj⟩ ⟨i, hi⟩ hji
    have hfalse := charListLe_lower_upper hl hu
    exact Bool.noConfusion (hfalse.symm.trans hle)
  · have hij' : i = j := by omega
    subst hij'
    exact startsUpper_startsLower_false hu hl

/-- C10 witness: listing `["a.jpg", "Z.png"]` sorts `Z.png` first. -/
theorem gallery_sort_case_sensitive_witness :
    startsUpper ((gallery_files (some ["a.jpg", "Z.png"])).get ⟨0, by decide⟩) = true ∧
    startsLower ((gallery_files (some ["a.jpg", "Z.png"])).get ⟨1, by decide⟩) = true ∧
    ((0 : Nat) < 1 ∧ isImageFile "Z.PNG" = true ∧ isImageFile "z.png" = true) :=
  ⟨by decide, by decide,
   gallery_sort_case_sensitive ["a.jpg", "Z.png"] 0 1 (by decide) (by decide) (by decide)
     (by decide)⟩

/-! Part: Claims about the storage invariants -/

/-- A valid contact POST is exactly one `insert_message` plus the success
flash. -/
theorem contact_valid_eq (f : Form) (t : String) (db : DB)
    (hn : pyStrip (f.name.getD "") ≠ "") (he : pyStrip (f.email.getD "") ≠ "") :
    contact f t db =
      (insert_message ((strippedOrNone f.name).getD "") ((strippedOrNone f.email).getD "")
        f.subject f.message t db,
       contact_success_flash) := by
  simp [contact, valid_cond hn he]

/-- Any message row present after a contact POST was either already stored
or was created by the handler with a non-empty name and email. -/
theorem contact_messages_new (g : Form) (t : String) (db : DB) (r : MessageRow)
    (hr : r ∈ ((contact g t db).1).messages) :
    r ∈ db.messages ∨ (r.name ≠ "" ∧ r.email ≠ "") := by
  by_cases hn : pyTruthy (strippedOrNone g.name) = true
  · by_cases he : pyTruthy (strippedOrNone g.email) = true
    · simp [contact, hn, he, insert_message] at hr
      rcases hr with hr | hr
      · exact Or.inl hr
      · subst hr
        exact Or.inr ⟨pyTruthy_getD_ne hn, pyTruthy_getD_ne he⟩
    · rw [Bool.not_eq_true] at he
      left
      simpa [contact, hn, he] using hr
  · rw [Bool.not_eq_true] at hn
    left
    simpa [contact, hn] using hr

/-- Any member row present after a membership POST was either already
stored or was created by the handler with a non-empty name and email. -/
theorem membership_members_new (m : Form) (t : String) (db : DB) (s : MemberRow)
    (hs : s ∈ ((membership m t db).1).members) :
    s ∈ db.members ∨ (s.name ≠ "" ∧ s.email ≠ "") := by
  by_cases hn : pyTruthy (strippedOrNone m.name) = true
  · by_cases he : pyTruthy (strippedOrNone m.email) = true
    · by_cases ha : pyTruthy m.age = true
      · cases hp : pyParseInt (m.age.getD "") with
        | none =>
          left
          simpa [membership, hn, he, ha, hp] using hs
        | some v =>
          simp [membership, hn, he, ha, hp, insert_member] at hs
          rcases hs with hs | hs
          · exact Or.inl hs
          · subst hs
            exact Or.inr ⟨pyTruthy_getD_ne hn, pyTruthy_getD_ne he⟩
      · rw [Bool.not_eq_true] at ha
        simp [membership, hn, he, ha, insert_member] at hs
        rcases hs with hs | hs
        · exact Or.inl hs
        · subst hs
          exact Or.inr ⟨pyTruthy_getD_ne hn, pyTruthy_getD_ne he⟩
    · rw [Bool.not_eq_true] at he
      left
      simpa [membership, hn, he] using hs
  · rw [Bool.not_eq_true] at hn
    left
    simpa [membership, hn] using hs

/-- C8: two sequential valid contact POSTs append exactly two message rows
whose ids are assigned by the storage layer's counter — consecutive,
therefore distinct and strictly increasing in submission order — and both
rows carry non-empty name and email; moreover any `Member` or
`ContactMessage` row ever created by the handlers (any row in a post-state
that is not in the pre-state) has a non-empty name and email. -/
theorem contact_sequential_inserts (db : DB) (f1 f2 : Form) (t1 t2 : String)
    (h1n : pyStrip (f1.name.getD "") ≠ "") (h1e : pyStrip (f1.email.getD "") ≠ "")
    (h2n : pyStrip (f2.name.getD "") ≠ "") (h2e : pyStrip (f2.email.getD "") ≠ "")
    (g m : Form) (tg tm : String) (gdb mdb : DB) (r : MessageRow) (s : MemberRow)
    (hr : r ∈ ((contact g tg gdb).1).messages)
    (hs : s ∈ ((membership m tm mdb).1).members) :
    ((contact f2 t2 (contact f1 t1 db).1).1).messages =
      db.messages ++
        [{ id := db.nextMessageId,
           name := (strippedOrNone f1.name).getD "",
           email := (strippedOrNone f1.email).getD "",
           subject := f1.subject, message := f1.message, sent_at := t1 },
         { id := db.nextMessageId + 1,
           name := (strippedOrNone f2.name).getD "",
           email := (strippedOrNone f2.email).getD "",
           subject := f2.subject, message := f2.message, sent_at := t2 }] ∧
    db.nextMessageId < db.nextMessageId + 1 ∧
    db.nextMessageId ≠ db.nextMessageId + 1 ∧
    (strippedOrNone f1.name).getD "" ≠ "" ∧ (strippedOrNone f1.email).getD "" ≠ "" ∧
    (strippedOrNone f2.name).getD "" ≠ "" ∧ (strippedOrNone f2.email).getD "" ≠ "" ∧
    (r ∈ gdb.messages ∨ (r.name ≠ "" ∧ r.email ≠ "")) ∧
    (s ∈ mdb.members ∨ (s.name ≠ "" ∧ s.email ≠ "")) := by
  refine ⟨?_, Nat.lt_succ_self _, Nat.ne_of_lt (Nat.lt_succ_self _),
    pyTruthy_getD_ne (pyTruthy_stripped_of_ne h1n),
    pyTruthy_getD_ne (pyTruthy_stripped_of_ne h1e),
    pyTruthy_getD_ne (pyTruthy_stripped_of_ne h2n),
    pyTruthy_getD_ne (pyTruthy_stripped_of_ne h2e),
    contact_messages_new g tg gdb r hr,
    membership_members_new m tm mdb s hs⟩
  rw [contact_valid_eq f2 t2 (contact f1 t1 db).1 h2n h2e,
    contact_valid_eq f1 t1 db h1n h1e]
  simp [insert_message]

/-- C8 witness: two concrete valid contact submissions at the initial
database, plus a concrete created row of each table. -/
theorem contact_sequential_inserts_witness :
    pyStrip "Alice" ≠ "" ∧ pyStrip "Bob" ≠ "" ∧
    ((contact bobForm "t2" (contact aliceForm "t1" init_db).1).1).messages =
      init_db.messages ++
        [{ id := init_db.nextMessageId,
           name := (strippedOrNone aliceForm.name).getD "",
           email := (strippedOrNone aliceForm.email).getD "",
           subject := aliceForm.subject, message := aliceForm.message, sent_at := "t1" },
         { id := init_db.nextMessageId + 1,
           name := (strippedOrNone bobForm.name).getD "",
           email := (strippedOrNone bobForm.email).getD "",
           subject := bobForm.subject, message := bobForm.message, sent_at := "t2" }] :=
  ⟨by decide, by decide,
   (contact_sequential_inserts init_db aliceForm bobForm "t1" "t2" (by decide) (by decide)
     (by decide) (by decide) aliceForm janeForm "t1" "tm" init_db init_db
     { id := 1, name := "Alice", email := "alice@example.com", subject := some "Hi",
       message := some "Hello there", sent_at := "t1" }
     { id := 1, name := "Jane Doe", email := "jane@example.com", phone := none,
       category := none, address := none, age := none, joined_at := "tm" }
     (by decide) (by decide)).1⟩

end ZTA
